import Mathlib

/-!
Verification of the retrieval subsystem of the papl-converter repository.

The definitions below are a shallow embedding of `src/lib/search_engine.py`
(class `PAPLSearchEngine`) and `src/lib/papl_assistant.py`
(classes `BedrockRAGAssistant` and the second `PAPLAssistant`).

Modelling conventions:
- Python strings are Lean `String`s; `str.lower()` is modelled by mapping
  `Char.toLower` over the characters (the data are ASCII).
- Python's float scores (sums of multiples of 0.5, small magnitude, all
  exactly representable as doubles) are modelled as `Rat`.
- Python dict keys that the code reads with `.get(k, default)` are modelled
  as `Option` fields (absent key = `none`).
- Fallible provider calls (AWS Bedrock) are modelled as oracle functions
  returning `Except`; errors carry the raising exception's class name.
-/

namespace Papl

/-! ### String utilities (Python `in`, `lower`, `split`, slicing) -/

/-- Model of Python `s.lower()` (ASCII data). -/
def lowerS (s : String) : String := String.mk (s.data.map Char.toLower)

/-- Model of Python `s.upper()` (ASCII data). -/
def upperS (s : String) : String := String.mk (s.data.map Char.toUpper)

/-- Test that the second list occurs at the start of the first (helper for substring search). -/
def listStarts : List Char → List Char → Bool
  | _, [] => true
  | [], _ :: _ => false
  | a :: s, b :: t => a == b && listStarts s t

/-- Test that `needle` occurs contiguously inside `hay`. -/
def listHasSub (hay needle : List Char) : Bool :=
  match hay with
  | [] => needle.isEmpty
  | _ :: t => listStarts hay needle || listHasSub t needle

/-- Python's `needle in hay` test on strings. -/
def strHasSub (hay needle : String) : Bool := listHasSub hay.data needle.data

/-- Python `any(w in hay for w in needles)`. -/
def containsAny (hay : String) (needles : List String) : Bool :=
  needles.any (fun n => strHasSub hay n)

/-- First `n` characters of a string, Python `s[:n]`. -/
def strTake (s : String) (n : Nat) : String := String.mk (s.data.take n)

/-- Python `sep.join(parts)`. -/
def joinSep (sep : String) : List String → String
  | [] => ""
  | [x] => x
  | x :: y :: t => x ++ sep ++ joinSep sep (y :: t)

/-- Python `c * n` for a single character `c` (e.g. `"=" * 80`). -/
def repChar (c : Char) (n : Nat) : String := String.mk (List.replicate n c)

/-- Replace every occurrence of character `a` by `b`, Python `s.replace(a, b)`
for single characters. -/
def replaceChar (s : String) (a b : Char) : String :=
  String.mk (s.data.map (fun c => if c == a then b else c))

/-- Python `str.title()` on ASCII data: uppercase a letter that follows a
non-letter, lowercase the other letters. -/
def titleAux : Bool → List Char → List Char
  | _, [] => []
  | prevAlpha, c :: t =>
    (if c.isAlpha then (if prevAlpha then c.toLower else c.toUpper) else c)
      :: titleAux c.isAlpha t

/-- Python `s.title()`. -/
def titleS (s : String) : String := String.mk (titleAux false s.data)

/-- First line of a string: Python `s.split('\n')[0]` (total since `split`
always yields at least one piece). -/
def firstLine (s : String) : String := String.mk (s.data.takeWhile (fun c => c != '\n'))

/-! ### Tokenizer — `PAPLSearchEngine._extract_terms` (search_engine.py 93-108) -/

/-- Python regex `\w` over ASCII: alphanumeric or underscore. -/
def isWordChar (c : Char) : Bool := c.isAlphanum || c == '_'

/-- A character kept (not blanked) by the `re.sub` in `_extract_terms`, whose
pattern negates the class of word characters, whitespace, dash and slash. -/
def keepChar (c : Char) : Bool :=
  isWordChar c || c.isWhitespace || c == '-' || c == '/'

/-- The `re.sub` of `_extract_terms`: every character outside the kept class
is replaced by a space. -/
def substNonWord (cs : List Char) : List Char :=
  cs.map (fun c => if keepChar c then c else ' ')

/-- Python `str.split()` : split on whitespace runs, dropping empty pieces.
The accumulator holds the current word reversed. -/
def splitWsAux : List Char → List Char → List String
  | [], [] => []
  | [], acc => [String.mk acc.reverse]
  | c :: t, acc =>
    if c.isWhitespace then
      match acc with
      | [] => splitWsAux t []
      | _ :: _ => String.mk acc.reverse :: splitWsAux t []
    else splitWsAux t (c :: acc)

/-- The stop-word set of `_extract_terms`. -/
def stopWords : List String :=
  ["the", "a", "an", "and", "or", "but", "in", "on", "at", "to", "for"]

/-- Model of `PAPLSearchEngine._extract_terms`: lowercase, blank special characters,
split on whitespace, drop stop words and tokens of length ≤ 2. -/
def extract_terms (text : String) : List String :=
  (splitWsAux (substNonWord (lowerS text).data) []).filter
    (fun w => decide (w ∉ stopWords) && decide (w.length > 2))

/-! ### Intent classifier — `_understand_query_intent` (search_engine.py 146-188) -/

/-- The intent dict built by `_understand_query_intent`. -/
structure QueryIntent where
  type : String
  focus : Option String
  modifiers : List (String × String)
deriving DecidableEq

/-- Keyword list of the pricing rule (line 157). -/
def pricingWords : List String := ["price", "cost", "how much", "$"]

/-- Phrase list of the rule/claiming rule (line 162). -/
def claimingPhrases : List String :=
  ["can i claim", "how to claim", "claiming", "rules for"]

/-- Phrase list of the definition rule (line 167). -/
def definitionWords : List String := ["what is", "what are", "define", "explain"]

/-- Phrase list of the availability rule (line 172). -/
def availabilityWords : List String := ["can i", "am i eligible", "available"]

/-- Model of `PAPLSearchEngine._understand_query_intent`, translated clause by clause:
an if/elif chain for the type and focus, then an if/elif chain for the state
modifier (only NSW and VIC are recognized, NSW checked first), then an
if/elif chain for the framework modifier. -/
def understand_query_intent (query : String) : QueryIntent :=
  let ql := lowerS query
  let tf : String × Option String :=
    if containsAny ql pricingWords then ("pricing", some "price")
    else if containsAny ql claimingPhrases then ("claiming", some "rules")
    else if containsAny ql definitionWords then ("definition", some "guidance")
    else if containsAny ql availabilityWords then ("both", some "eligibility")
    else ("general", none)
  let stateMods : List (String × String) :=
    if strHasSub ql "in nsw" || strHasSub ql "in new south wales" then
      [("state", "NSW")]
    else if strHasSub ql "in vic" || strHasSub ql "in victoria" then
      [("state", "VIC")]
    else []
  let frameworkMods : List (String × String) :=
    if strHasSub ql "old framework" then [("framework", "old")]
    else if strHasSub ql "new framework" then [("framework", "new")]
    else []
  { type := tf.1, focus := tf.2, modifiers := stateMods ++ frameworkMods }

/-! ### Search-engine data model

A support item is a JSON dict; the fields the search engine reads are modelled
as `Option` fields (`none` = key absent, so `item.get(k, d)` is `getD d`).
The inner per-state dict of `price_limits` is read only through its `price`
key, so it is modelled by that value. -/

structure SupportItem where
  support_item_number : Option String
  support_item_name : Option String
  support_category : Option String
  registration_group : Option String
  unit : Option String
  price_limits : Option (List (String × Option Rat))
deriving DecidableEq

/-- A claiming-rule value from the YAML mapping. The rule body is an opaque
YAML structure; the code observes it only through `str(rule)` (scoring),
`yaml.dump(rule)` (display) and its truthiness (the `if rule:` guard), so it
is modelled by those three observations. -/
structure RuleVal where
  repr_str : String
  dump_str : String
  truthy : Bool
deriving DecidableEq

/-- The three corpora held by `PAPLSearchEngine`. `support_items` is
`json_data['support_items']` and `claiming_rules` is
`yaml_data['claiming_rules']` (an absent key behaves exactly like an empty
collection throughout the class, so plain lists are used). `sections` is the
list `re.split(r'\n#' + '{1,6}' + r'\s+', markdown_data)` — both
`_index_markdown_sections` and `_search_guidance` apply this same split to the
same `markdown_data`, so the model takes the split result as the guidance
corpus. -/
structure Corpus where
  support_items : List SupportItem
  claiming_rules : List (String × RuleVal)
  sections : List String
deriving DecidableEq

/-- Model of `SearchResult` (search_engine.py 13-21). The `metadata` dict holds the
scalar keys the code stores; the nested full record is recoverable from the
corpus by key and carries no extra observable state. -/
structure SearchResult where
  source_type : String
  relevance_score : Rat
  title : String
  content : String
  metadata : List (String × String)
  match_reason : String
deriving DecidableEq

/-! ### Inverted indices (search_engine.py 35-91)

The Python builds dicts term → list of keys by appending one key per
occurrence of the term, iterating documents in corpus order; the model gives
each index directly as the lookup function term → key list, with the same
order and multiplicity. -/

/-- The indexable text of a support item (search_engine.py 58-62). -/
def itemIndexText (item : SupportItem) : String :=
  item.support_item_name.getD "" ++ " " ++
  item.support_category.getD "" ++ " " ++
  item.registration_group.getD ""

/-- Lookup in the pricing index: one copy of the item number per occurrence of the
term among the item's indexable terms, in corpus order. -/
def pricing_index (items : List SupportItem) (term : String) : List String :=
  items.flatMap (fun it =>
    ((extract_terms (itemIndexText it)).filter (fun t => t == term)).map
      (fun _ => it.support_item_number.getD ""))

/-- Lookup in the rule index: terms come from the rule name only (lines 69-77). -/
def rule_index (rules : List (String × RuleVal)) (term : String) : List String :=
  rules.flatMap (fun r =>
    ((extract_terms r.1).filter (fun t => t == term)).map (fun _ => r.1))

/-- A section participates in the guidance index iff `section.strip()` is
truthy, i.e. it has a non-whitespace character (line 85). -/
def sectionNonBlank (s : String) : Bool := s.data.any (fun c => !c.isWhitespace)

/-- Lookup in the guidance index: terms come from the first 200 characters of each
non-blank section; keys are section positions (lines 79-91). -/
def guidance_index (sections : List String) (term : String) : List Nat :=
  (List.range sections.length).flatMap (fun i =>
    let sec := sections.getD i ""
    if sectionNonBlank sec then
      ((extract_terms (strTake sec 200)).filter (fun t => t == term)).map (fun _ => i)
    else [])

/-! ### Candidate sets

Each sub-search accumulates `matching_xxx` as a Python `set`, updated with the
index lookup of every query term, then iterates it. The model keeps the keys
in first-occurrence order of the unioned lookups; every claim about this set
is order-independent (membership, and stability of the final sort relative to
the merged list the engine actually built). -/

/-- Duplicate removal keeping first occurrences; `seen` holds emitted keys. -/
def dedupAux {α : Type} [DecidableEq α] : List α → List α → List α
  | [], _ => []
  | x :: t, seen => if x ∈ seen then dedupAux t seen else x :: dedupAux t (x :: seen)

/-- Keys of a union of index lookups, one occurrence each. -/
def dedupKeys {α : Type} [DecidableEq α] (l : List α) : List α := dedupAux l []

/-- The candidate key set of `_search_pricing` (lines 196-199). -/
def pricingCandidates (items : List SupportItem) (query : String) : List String :=
  dedupKeys ((extract_terms query).flatMap (pricing_index items))

/-- The candidate key set of `_search_rules` (lines 228-231). -/
def ruleCandidates (rules : List (String × RuleVal)) (query : String) : List String :=
  dedupKeys ((extract_terms query).flatMap (rule_index rules))

/-- The candidate key set of `_search_guidance` (lines 260-263). -/
def guidanceCandidates (sections : List String) (query : String) : List Nat :=
  dedupKeys ((extract_terms query).flatMap (guidance_index sections))

/-! ### Scoring (search_engine.py 299-354) -/

/-- The extracted terms of a support item's (lowercased) name, as used by
`_score_support_item`. -/
def nameTerms (item : SupportItem) : List String :=
  extract_terms (lowerS (item.support_item_name.getD ""))

/-- Model of `_score_support_item`: 3.0 per distinct query term among the name terms
(a set intersection in Python), flat 2.0 if any query term is a substring of
the lowercased category, 1.0 per state modifier whose state is a key of
`price_limits`. -/
def score_support_item (item : SupportItem) (query_terms : List String)
    (intent : QueryIntent) : Rat :=
  let matching := (query_terms.dedup.filter
    (fun t => decide (t ∈ nameTerms item))).length
  let category := lowerS (item.support_category.getD "")
  let catBonus : Rat := if query_terms.any (fun t => strHasSub category t) then 2 else 0
  let stateCount := (intent.modifiers.filter
    (fun m => m.1 == "state" &&
      decide (m.2 ∈ ((item.price_limits.getD []).map Prod.fst)))).length
  (matching : Rat) * 3 + catBonus + (stateCount : Rat)

/-- Model of `_score_rule`: 1.5 per query-term occurrence (list, not set) found as a
substring of `str(rule).lower()`; ×1.5 if the intent focus is `rules`. -/
def score_rule (rule : RuleVal) (query_terms : List String)
    (intent : QueryIntent) : Rat :=
  let rule_str := lowerS rule.repr_str
  let base : Rat := ((query_terms.filter (fun t => strHasSub rule_str t)).length : Rat) * (3 / 2)
  if intent.focus == some "rules" then base * (3 / 2) else base

/-- Model of `_score_guidance`: 1.0 per query-term occurrence found as a substring of
the lowercased section; ×1.5 if the intent focus is `guidance`. -/
def score_guidance (sec : String) (query_terms : List String)
    (intent : QueryIntent) : Rat :=
  let sl := lowerS sec
  let base : Rat := ((query_terms.filter (fun t => strHasSub sl t)).length : Rat)
  if intent.focus == some "guidance" then base * (3 / 2) else base

/-! ### Result construction and the three sub-searches (search_engine.py 190-289) -/

/-- Render a price to two decimals, the Python `f"...{price:.2f}"` for the
exactly-representable prices that occur in the data. -/
def fmtPrice (p : Rat) : String :=
  let cents : Int := (round (p * 100) : Int)
  let sign := if cents < 0 then "-" else ""
  let a := cents.natAbs
  sign ++ toString (a / 100) ++ "." ++
    (if a % 100 < 10 then "0" else "") ++ toString (a % 100)

/-- Model of `_format_pricing_result` (lines 356-371). -/
def format_pricing_result (item : SupportItem) (intent : QueryIntent) : String :=
  let head := "**" ++ item.support_item_name.getD "Unknown" ++ "**\n\n"
  let stateLines := joinSep "" (intent.modifiers.filterMap (fun m =>
    if m.1 == "state" then
      let price := (((item.price_limits.getD []).lookup m.2).getD none).getD 0
      some ("Price in " ++ m.2 ++ ": $" ++ fmtPrice price ++ "\n")
    else none))
  head ++ stateLines ++
    "\nCategory: " ++ item.support_category.getD "Not specified" ++ "\n" ++
    "Unit: " ++ item.unit.getD "Not specified" ++ "\n"

/-- The `SearchResult` built for one pricing item (lines 207-218). -/
def mkPricingResult (item : SupportItem) (query_terms : List String)
    (intent : QueryIntent) : SearchResult :=
  { source_type := "pricing"
    relevance_score := score_support_item item query_terms intent
    title := item.support_item_name.getD "Unknown"
    content := format_pricing_result item intent
    metadata := [("item_number", item.support_item_number.getD ""),
                 ("category", item.support_category.getD "")]
    match_reason := "Matches: " ++ joinSep ", " (query_terms.take 3) }

/-- Model of `_get_support_item` (lines 291-297): first item whose number equals the
key; an item with the number key absent never matches (Python compares
`item.get('support_item_number')`, i.e. `None`, against the key). -/
def get_support_item (items : List SupportItem) (n : String) : Option SupportItem :=
  items.find? (fun it => it.support_item_number == some n)

/-- Model of `_search_pricing` (lines 190-220). -/
def search_pricing (items : List SupportItem) (query : String)
    (intent : QueryIntent) : List SearchResult :=
  let query_terms := extract_terms query
  (pricingCandidates items query).filterMap (fun n =>
    (get_support_item items n).map (fun item => mkPricingResult item query_terms intent))

/-- The `SearchResult` built for one claiming rule (lines 240-250). -/
def mkRuleResult (name : String) (rule : RuleVal) (query_terms : List String)
    (intent : QueryIntent) : SearchResult :=
  { source_type := "rule"
    relevance_score := score_rule rule query_terms intent
    title := titleS (replaceChar name '_' ' ')
    content := "```yaml\n" ++ rule.dump_str ++ "\n```"
    metadata := [("rule_name", name)]
    match_reason := "Claiming rule for: " ++ name }

/-- Model of `_search_rules` (lines 222-252): candidates from the rule index, fetched
with `claiming_rules.get(rule_name)` and skipped when the body is falsy. -/
def search_rules (rules : List (String × RuleVal)) (query : String)
    (intent : QueryIntent) : List SearchResult :=
  let query_terms := extract_terms query
  (ruleCandidates rules query).filterMap (fun name =>
    match rules.lookup name with
    | none => none
    | some rule =>
      if rule.truthy then some (mkRuleResult name rule query_terms intent) else none)

/-- The `SearchResult` built for one guidance section (lines 271-287). -/
def mkGuidanceResult (idx : Nat) (sec : String) (query_terms : List String)
    (intent : QueryIntent) : SearchResult :=
  { source_type := "guidance"
    relevance_score := score_guidance sec query_terms intent
    title := strTake (firstLine sec) 100
    content := strTake sec 500
    metadata := [("section_index", toString idx)]
    match_reason := "Guidance contains: " ++ joinSep ", " (query_terms.take 3) }

/-- Model of `_search_guidance` (lines 254-289): candidate indices bounds-checked
against the section list. -/
def search_guidance (sections : List String) (query : String)
    (intent : QueryIntent) : List SearchResult :=
  let query_terms := extract_terms query
  (guidanceCandidates sections query).filterMap (fun idx =>
    if h : idx < sections.length then
      some (mkGuidanceResult idx (sections.get ⟨idx, h⟩) query_terms intent)
    else none)

/-! ### Merging and sorting (search_engine.py 110-144)

`search` extends one `results` list from the dispatched sub-searches and then
calls `results.sort(key=..., reverse=True)` — Python's stable sort. A stable
descending sort by score is modelled by insertion sort that inserts each
element before the first element of not-larger score. -/

/-- Merged result list of `search` before sorting, in the order the code
extends `results`. -/
def searchMerged (c : Corpus) (query : String) : List SearchResult :=
  let intent := understand_query_intent query
  let r1 := if intent.type == "pricing" then search_pricing c.support_items query intent else []
  let r2 := if intent.type == "rules" || intent.type == "claiming" || intent.type == "both"
            then search_rules c.claiming_rules query intent else []
  let r3 := if intent.type == "guidance" || intent.type == "definition" || intent.type == "both"
            then search_guidance c.sections query intent else []
  let r4 := if intent.type == "general"
            then search_pricing c.support_items query intent ++
                 search_rules c.claiming_rules query intent ++
                 search_guidance c.sections query intent
            else []
  r1 ++ r2 ++ r3 ++ r4

/-- Insert an element into a descending-sorted list, before the first element
of not-larger score (the position a stable descending sort gives an element
that precedes the rest). -/
def insertDesc (x : SearchResult) : List SearchResult → List SearchResult
  | [] => [x]
  | y :: t => if y.relevance_score ≤ x.relevance_score then x :: y :: t
              else y :: insertDesc x t

/-- Stable sort by `relevance_score` descending, Python
`results.sort(key=lambda x: x.relevance_score, reverse=True)`. -/
def sortDesc : List SearchResult → List SearchResult
  | [] => []
  | x :: t => insertDesc x (sortDesc t)

/-- Model of `PAPLSearchEngine.search` (lines 110-144): classify, dispatch, merge,
sort descending, truncate to `max_results`. -/
def search (c : Corpus) (query : String) (max_results : Nat) : List SearchResult :=
  (sortDesc (searchMerged c query)).take max_results

/-! ### RAG assistant — `BedrockRAGAssistant` (papl_assistant.py 45-474)

`ask` / `retrieve_relevant_documents` are modelled as functions of the
constructor-built document corpus (`self.documents`) and of two oracle
functions standing for the external Bedrock capabilities
(`_get_embedding`'s `invoke_model` on the embedding model, and
`_call_claude_bedrock`'s `invoke_model` on the LLM).  Each function also
returns the list of external calls it made, so that "does not invoke the
generation capability" is an observable statement.  The conversation-history
append of `ask` (line 440) touches no claim and is not part of the returned
value. -/

/-- Model of the `Document` dataclass (papl_assistant.py 35-42); `metadata` is reduced to
its scalar entries as for `SearchResult`. -/
structure RagDoc where
  content : String
  source_type : String
  chunk_id : String
  embedding : Option (List Rat)
deriving DecidableEq

/-- A raised Python exception: a provider exception (boto3/botocore, carrying
its class name and message) or a builtin `AttributeError` with the missing
attribute's name.  `papl_assistant.py` defines no exception classes of its
own and wraps no provider exception (see `moduleClassNames`). -/
inductive PyErr where
  | provider (cls msg : String)
  | attributeError (attr : String)
deriving DecidableEq

/-- The classes the module `papl_assistant.py` defines, in statement order
(lines 35, 45, 511, 520).  No `EmbeddingServiceError` or
`GenerationServiceError` class exists anywhere in the module. -/
def moduleClassNames : List String :=
  ["Document", "BedrockRAGAssistant", "Document", "PAPLAssistant"]

/-- A call made to an external Bedrock capability. -/
inductive ExtCall where
  | embedCall (text : String)
  | generateCall (prompt : String) (maxTokens : Nat)
deriving DecidableEq

/-- Dot product of two vectors (`np.dot`). -/
def dotQ (a b : List Rat) : Rat := ((a.zip b).map (fun p => p.1 * p.2)).sum

/-- Squared Euclidean norm (`np.linalg.norm` squared). -/
def normSq (a : List Rat) : Rat := dotQ a a

/-- Exact comparison `cos(q,e1) ≥ cos(q,e2)` of the cosine similarities
`dot(q,e) / (norm(q) * norm(e))` computed at papl_assistant.py 310-312,
decided without square roots: the positive common factor `norm(q)` cancels
and the remaining inequality is settled by sign analysis and squaring.  The
Python compares the corresponding floats; the model compares the exact
values. -/
def simGE (q e1 e2 : List Rat) : Bool :=
  let s1 := dotQ q e1
  let s2 := dotQ q e2
  if 0 ≤ s1 then
    if s2 ≤ 0 then true
    else decide (s2 ^ 2 * normSq e1 ≤ s1 ^ 2 * normSq e2)
  else
    if 0 ≤ s2 then false
    else decide (s1 ^ 2 * normSq e2 ≤ s2 ^ 2 * normSq e1)

/-- Stable insertion for the descending similarity sort
(`similarities.sort(key=lambda x: x[1], reverse=True)`, line 316). -/
def insertBySim (q : List Rat) (x : RagDoc × List Rat) :
    List (RagDoc × List Rat) → List (RagDoc × List Rat)
  | [] => [x]
  | y :: t => if simGE q x.2 y.2 then x :: y :: t else y :: insertBySim q x t

/-- Stable descending sort of `(document, embedding)` pairs by similarity. -/
def sortBySim (q : List Rat) : List (RagDoc × List Rat) → List (RagDoc × List Rat)
  | [] => []
  | x :: t => insertBySim q x (sortBySim q t)

/-- The ranking step of `retrieve_relevant_documents` (lines 305-317) given
the query embedding: documents lacking an embedding are excluded, the rest
sorted by cosine similarity descending (stable), the top `top_k` returned. -/
def rankDocs (qe : List Rat) (docs : List RagDoc) (topK : Nat) : List RagDoc :=
  ((sortBySim qe (docs.filterMap (fun d => d.embedding.map (fun v => (d, v))))).map
    Prod.fst).take topK

/-- Model of `retrieve_relevant_documents` (lines 291-317): the query embedding is
requested first — an external call made before the corpus is inspected —
then the corpus is ranked. -/
def retrieveE (docs : List RagDoc) (embedO : String → Except PyErr (List Rat))
    (query : String) (topK : Nat) : Except PyErr (List RagDoc) × List ExtCall :=
  match embedO query with
  | .error e => (.error e, [.embedCall query])
  | .ok qe => (.ok (rankDocs qe docs topK), [.embedCall query])

/-- The dict returned by `ask` (lines 446-453 on the generation path,
419-425 on the empty-retrieval path; the latter carries no `prompt` or
`model_used` key, hence the `Option` fields). -/
structure AskResult where
  answer : String
  sources : List RagDoc
  retrieved_docs : Nat
  query : String
  prompt : Option String
  model_used : Option String
deriving DecidableEq

/-- The fixed empty-retrieval result of `ask` (lines 419-425). -/
def noRelevantResult (query : String) : AskResult :=
  { answer := "I couldn\x27t find relevant information in the PAPL documents to answer your question."
    sources := []
    retrieved_docs := 0
    query := query
    prompt := none
    model_used := none }

/-- Python `enumerate(relevant_docs, 1)`. -/
def enumFrom (i : Nat) : List RagDoc → List (Nat × RagDoc)
  | [] => []
  | d :: t => (i, d) :: enumFrom (i + 1) t

/-- The per-document block of the prompt (lines 341-344). -/
def docBlock (p : Nat × RagDoc) : List String :=
  ["\n[Document " ++ toString p.1 ++ " - " ++ upperS p.2.source_type ++ "]",
   p.2.content, repChar '-' 80]

/-- Model of `_generate_prompt` (lines 319-358): system instructions, then each
retrieved document labelled by index and type, then the user question, then
the response-format reminders, joined with newlines. -/
def generatePrompt (query : String) (docs : List RagDoc) : String :=
  let headParts : List String :=
    ["You are a helpful NDIS PAPL (Pricing Arrangements and Price Limits) assistant.",
     "Your role is to answer questions about NDIS support pricing, claiming rules, and guidance.",
     "",
     "CRITICAL RULES:",
     "1. Answer ONLY based on the provided PAPL context below",
     "2. If the answer is not in the context, say so clearly",
     "3. Always cite which document(s) you used (e.g., \x27According to Document 1...\x27)",
     "4. Use plain language suitable for participants and families",
     "5. Include support item numbers when discussing pricing",
     "6. Explain claiming rules step-by-step",
     "7. Be accurate - this affects real people\x27s NDIS funding",
     "",
     "CONTEXT FROM PAPL DOCUMENTS:",
     repChar '=' 80]
  let ctxParts : List String := (enumFrom 1 docs).flatMap docBlock
  let tailParts : List String :=
    ["", repChar '=' 80, "",
     "USER QUESTION: " ++ query, "",
     "Please provide a clear, accurate answer based ONLY on the context above.",
     "Remember to cite your sources and use plain language."]
  joinSep "\n" (headParts ++ ctxParts ++ tailParts)

/-- Model of `ask` (lines 401-453): retrieve (which embeds the query), short-circuit
with `noRelevantResult` when retrieval yields zero documents, else build the
prompt, call the generation capability, and return the answer dict.  The
second component is the list of external calls made. -/
def askE (docs : List RagDoc) (embedO : String → Except PyErr (List Rat))
    (genO : String → Nat → Except PyErr String) (llm_model : String)
    (query : String) (topK maxTokens : Nat) :
    Except PyErr AskResult × List ExtCall :=
  match embedO query with
  | .error e => (.error e, [.embedCall query])
  | .ok qe =>
    match rankDocs qe docs topK with
    | [] => (.ok (noRelevantResult query), [.embedCall query])
    | _ :: _ =>
      let relevant := rankDocs qe docs topK
      let prompt := generatePrompt query relevant
      match genO prompt maxTokens with
      | .error e => (.error e, [.embedCall query, .generateCall prompt maxTokens])
      | .ok answer =>
        (.ok { answer := answer
               sources := relevant
               retrieved_docs := relevant.length
               query := query
               prompt := some prompt
               model_used := some llm_model },
         [.embedCall query, .generateCall prompt maxTokens])

/-! ### The second `PAPLAssistant` class (papl_assistant.py 477-549)

Line 478 binds the module name `PAPLAssistant` to `BedrockRAGAssistant`;
line 520 executes a second `class PAPLAssistant` statement that rebinds the
same name.  The second class defines only `__init__` and
`_build_document_corpus`, yet `_build_document_corpus` calls
`self._create_pricing_document` and `self._create_rule_document`. -/

/-- A module-level binding of the name `PAPLAssistant`. -/
inductive PaplBinding where
  | bedrockAlias
  | secondClass
deriving DecidableEq

/-- The assignments to the module name `PAPLAssistant`, in execution order
(line 478, then line 520). -/
def paplBindingSeq : List PaplBinding := [.bedrockAlias, .secondClass]

/-- The binding in effect after the module body runs: the last assignment. -/
def paplFinalBinding : PaplBinding := paplBindingSeq.getLastD .bedrockAlias

/-- The attributes the second `PAPLAssistant` class body defines: its two
`def` statements (lines 523, 535). -/
def papl2MethodNames : List String := ["__init__", "_build_document_corpus"]

/-- Python attribute lookup `self.<attr>` on an instance of the second
class: `AttributeError` when the class body does not define the name. -/
def attrLookup2 (attr : String) : Except PyErr Unit :=
  if attr ∈ papl2MethodNames then .ok () else .error (.attributeError attr)

/-- The second `Document` dataclass (lines 511-517). -/
structure Document2 where
  content : String
  metadata : List (String × String)
  source_type : String
  chunk_id : String
deriving DecidableEq

/-- Model of `_build_document_corpus` of the second class (lines 535-548): the first
iteration over a non-empty `support_items` evaluates
`self._create_pricing_document(item)`, whose attribute lookup raises;
likewise `self._create_rule_document` for a non-empty `claiming_rules`.
The `.ok` continuations are unreachable because neither name is among
`papl2MethodNames`. -/
def build_document_corpus2 (support_items : Option (List SupportItem))
    (claiming_rules : Option (List (String × RuleVal))) :
    Except PyErr (List Document2) :=
  match support_items with
  | some (_ :: _) =>
    (match attrLookup2 "_create_pricing_document" with
     | .error e => .error e
     | .ok _ => .ok [])
  | _ =>
    match claiming_rules with
    | some (_ :: _) =>
      (match attrLookup2 "_create_rule_document" with
       | .error e => .error e
       | .ok _ => .ok [])
    | _ => .ok []

/-- Model of `PAPLAssistant.__init__` of the second class (lines 523-533): stores the
inputs and calls `_build_document_corpus`; an exception raised there
propagates out of the constructor.  The arguments are the `support_items`
entry of `json_data` and the `claiming_rules` entry of `yaml_data`
(`none` = key absent, which is also the effect of the `or {}` defaults). -/
def paplAssistant2Init (json_support_items : Option (List SupportItem))
    (yaml_claiming_rules : Option (List (String × RuleVal))) :
    Except PyErr (List Document2) :=
  build_document_corpus2 json_support_items yaml_claiming_rules

/-! ### Concrete sample data (used by witness and counterexample theorems) -/

/-- A pricing record shaped like the spec's worked scenario. -/
def demoItem : SupportItem :=
  { support_item_number := some "01_001"
    support_item_name := some "Occupational Therapy - Standard"
    support_category := some "Therapy"
    registration_group := some "Therapeutic Supports"
    unit := some "HOUR"
    price_limits := some [("NSW", some (19399 / 100)), ("NT", some (20563 / 100))] }

/-- A second pricing record, base version. -/
def demoItemBase : SupportItem :=
  { support_item_number := some "02_001"
    support_item_name := some "Transport Help"
    support_category := some "Transport"
    registration_group := some "Transport"
    unit := some "EACH"
    price_limits := some [("NSW", some 1)] }

/-- Variant of `demoItemBase` with one extra matching term in the name. -/
def demoItemExtended : SupportItem :=
  { demoItemBase with
    support_item_number := some "02_002"
    support_item_name := some "Transport Help Standard" }

/-- A truthy claiming-rule body. -/
def demoRule : RuleVal :=
  { repr_str := "max 100 per week", dump_str := "max: 100\n", truthy := true }

/-- A falsy claiming-rule body (the YAML value `None`): `str(None)` is
`"None"`, `yaml.dump(None)` renders `null`, and the `if rule:` guard of
`_search_rules` is false for it. -/
def demoFalsyRule : RuleVal :=
  { repr_str := "None", dump_str := "null\n...\n", truthy := false }

/-- A small corpus over the sample data. -/
def demoCorpus : Corpus :=
  { support_items := [demoItem]
    claiming_rules := [("transport_rules", demoRule)]
    sections := ["PAPL Guidance\nIntro text", "Claiming transport\nDetails"] }

/-- One embedded RAG document chunk. -/
def demoRagDoc : RagDoc :=
  { content := "Support Item: Occupational Therapy"
    source_type := "pricing"
    chunk_id := "pricing_01_001"
    embedding := some [1] }

/-- An embedding oracle that always succeeds. -/
def embedOkOracle : String → Except PyErr (List Rat) := fun _ => .ok [1]

/-- An embedding oracle whose provider raises `ClientError`. -/
def embedFailOracle : String → Except PyErr (List Rat) :=
  fun _ => .error (.provider "ClientError" "service unavailable")

/-- A generation oracle that always succeeds. -/
def genOkOracle : String → Nat → Except PyErr String := fun _ _ => .ok "An answer."

/-- A generation oracle whose provider raises the same `ClientError`. -/
def genFailOracle : String → Nat → Except PyErr String :=
  fun _ _ => .error (.provider "ClientError" "service unavailable")

/-! ## Helper lemmas -/

theorem mem_dedupAux {α : Type} [DecidableEq α] (l : List α) :
    ∀ (seen : List α) (a : α), a ∈ dedupAux l seen ↔ a ∈ l ∧ a ∉ seen := by
  induction l with
  | nil => intro seen a; simp [dedupAux]
  | cons x t ih =>
    intro seen a
    by_cases hx : x ∈ seen
    · simp only [dedupAux, if_pos hx]
      rw [ih]
      constructor
      · rintro ⟨h1, h2⟩
        exact ⟨List.mem_cons_of_mem x h1, h2⟩
      · rintro ⟨h1, h2⟩
        rcases List.mem_cons.mp h1 with rfl | h1'
        · exact absurd hx h2
        · exact ⟨h1', h2⟩
    · simp only [dedupAux, if_neg hx]
      rw [List.mem_cons, ih]
      constructor
      · rintro (rfl | ⟨h1, h2⟩)
        · exact ⟨List.mem_cons_self a t, hx⟩
        · exact ⟨List.mem_cons_of_mem x h1, fun hs => h2 (List.mem_cons_of_mem x hs)⟩
      · rintro ⟨h1, h2⟩
        rcases List.mem_cons.mp h1 with rfl | h1'
        · exact Or.inl rfl
        · by_cases hax : a = x
          · exact Or.inl hax
          · refine Or.inr ⟨h1', fun hs => ?_⟩
            rcases List.mem_cons.mp hs with h | h
            · exact hax h
            · exact h2 h

theorem mem_dedupKeys {α : Type} [DecidableEq α] (l : List α) (a : α) :
    a ∈ dedupKeys l ↔ a ∈ l := by
  simp [dedupKeys, mem_dedupAux]

theorem mem_insertDesc (x z : SearchResult) (l : List SearchResult) :
    z ∈ insertDesc x l ↔ z = x ∨ z ∈ l := by
  induction l with
  | nil => simp [insertDesc]
  | cons y t ih =>
    by_cases h : y.relevance_score ≤ x.relevance_score
    · simp [insertDesc, h, List.mem_cons]
    · simp [insertDesc, h, List.mem_cons, ih]
      tauto

theorem pairwise_insertDesc (x : SearchResult) (l : List SearchResult)
    (hl : l.Pairwise (fun a b => b.relevance_score ≤ a.relevance_score)) :
    (insertDesc x l).Pairwise (fun a b => b.relevance_score ≤ a.relevance_score) := by
  induction l with
  | nil => simp [insertDesc]
  | cons y t ih =>
    rcases List.pairwise_cons.mp hl with ⟨hy, ht⟩
    by_cases h : y.relevance_score ≤ x.relevance_score
    · simp only [insertDesc, if_pos h]
      refine List.pairwise_cons.mpr ⟨?_, hl⟩
      intro z hz
      rcases List.mem_cons.mp hz with rfl | hz'
      · exact h
      · exact le_trans (hy z hz') h
    · simp only [insertDesc, if_neg h]
      refine List.pairwise_cons.mpr ⟨?_, ih ht⟩
      intro z hz
      rcases (mem_insertDesc x z t).mp hz with rfl | hz'
      · exact le_of_lt (not_le.mp h)
      · exact hy z hz'

theorem pairwise_sortDesc (l : List SearchResult) :
    (sortDesc l).Pairwise (fun a b => b.relevance_score ≤ a.relevance_score) := by
  induction l with
  | nil => simp [sortDesc]
  | cons x t ih =>
    simp only [sortDesc]
    exact pairwise_insertDesc x (sortDesc t) ih

theorem filter_insertDesc (x : SearchResult) (l : List SearchResult) (s : Rat) :
    (insertDesc x l).filter (fun r => decide (r.relevance_score = s))
      = (x :: l).filter (fun r => decide (r.relevance_score = s)) := by
  induction l with
  | nil => rfl
  | cons y t ih =>
    by_cases h : y.relevance_score ≤ x.relevance_score
    · simp only [insertDesc, if_pos h]
    · simp only [insertDesc, if_neg h]
      by_cases hy : y.relevance_score = s
      · have hx : ¬ x.relevance_score = s := by
          intro hxx
          apply h
          rw [hy, hxx]
        simp [List.filter_cons, hy, hx, ih]
      · by_cases hx : x.relevance_score = s
        · simp [List.filter_cons, hy, hx, ih]
        · simp [List.filter_cons, hy, hx, ih]

theorem filter_sortDesc (l : List SearchResult) (s : Rat) :
    (sortDesc l).filter (fun r => decide (r.relevance_score = s))
      = l.filter (fun r => decide (r.relevance_score = s)) := by
  induction l with
  | nil => rfl
  | cons x t ih =>
    simp only [sortDesc]
    rw [filter_insertDesc]
    simp only [List.filter_cons, ih]

theorem length_filter_mem_append_singleton (ns : List String) (t : String) :
    ∀ (l : List String), l.Nodup → t ∈ l → t ∉ ns →
      (l.filter (fun s => decide (s ∈ ns ++ [t]))).length
        = (l.filter (fun s => decide (s ∈ ns))).length + 1 := by
  intro l
  induction l with
  | nil => intro _ hmem _; cases hmem
  | cons a l' ih =>
    intro hnd hmem hnotin
    rcases List.nodup_cons.mp hnd with ⟨ha, hnd'⟩
    by_cases hat : a = t
    · subst hat
      have hcong : l'.filter (fun s => decide (s ∈ ns ++ [a]))
          = l'.filter (fun s => decide (s ∈ ns)) := by
        apply List.filter_congr
        intro s hs
        have hsa : s ≠ a := fun hh => ha (hh ▸ hs)
        apply decide_eq_decide.mpr
        rw [List.mem_append, List.mem_singleton]
        constructor
        · rintro (h | h)
          · exact h
          · exact absurd h hsa
        · exact Or.inl
      rw [List.filter_cons_of_pos (by simp), List.filter_cons_of_neg (by simp [hnotin]),
        hcong, List.length_cons]
    · have hmem' : t ∈ l' := by
        rcases List.mem_cons.mp hmem with h | h
        · exact absurd h.symm hat
        · exact h
      have hhead : (a ∈ ns ++ [t]) ↔ (a ∈ ns) := by
        rw [List.mem_append, List.mem_singleton]
        constructor
        · rintro (h | h)
          · exact h
          · exact absurd h hat
        · exact Or.inl
      by_cases hans : a ∈ ns
      · rw [List.filter_cons_of_pos (by exact decide_eq_true (hhead.mpr hans)),
          List.filter_cons_of_pos (by exact decide_eq_true hans),
          List.length_cons, List.length_cons, ih hnd' hmem' hnotin]
      · rw [List.filter_cons_of_neg (by simp [hhead, hans]),
          List.filter_cons_of_neg (by simp [hans]),
          ih hnd' hmem' hnotin]

/-! ## Claim theorems -/

/-- C1: Intent classification is an ordered, first-match-wins rule list with
default `general`: whenever the lowercased query contains any of the pricing
keywords (`price`, `cost`, `how much`, `$`), `_understand_query_intent`
returns type `pricing` with focus `price`, regardless of which later-rule
phrases the query also contains; in particular
`"how much does it cost to claim transport"` classifies as `pricing` even
though it contains `claim`. -/
theorem intent_first_rule_pricing :
    (∀ q : String, containsAny (lowerS q) pricingWords = true →
      (understand_query_intent q).type = "pricing" ∧
      (understand_query_intent q).focus = some "price")
    ∧ (understand_query_intent "how much does it cost to claim transport").type
        = "pricing"
    ∧ strHasSub (lowerS "how much does it cost to claim transport") "claim" = true := by
  refine ⟨?_, by decide, by decide⟩
  intro q h
  simp [understand_query_intent, h]

/-- Witness for C1 at the spec's concrete query. -/
theorem intent_first_rule_pricing_witness :
    (understand_query_intent "how much does it cost to claim transport").type
        = "pricing" ∧
    (understand_query_intent "how much does it cost to claim transport").focus
        = some "price" :=
  intent_first_rule_pricing.1 "how much does it cost to claim transport" (by decide)

/-- C2: `_score_support_item` equals 3.0 per distinct query term among the
item's name terms, plus a flat 2.0 if any query term is a substring of the
category, plus 1.0 per state modifier whose state is in the item's
`price_limits`; consequently, adding one more matching query term to an
otherwise-identical item's name increases the score by exactly 3.0. -/
theorem pricing_score_formula_and_monotonicity :
    (∀ (item : SupportItem) (qts : List String) (intent : QueryIntent),
      score_support_item item qts intent =
        3 * ((qts.dedup.filter (fun s => decide (s ∈ nameTerms item))).length : Rat)
        + (if qts.any (fun s => strHasSub (lowerS (item.support_category.getD "")) s)
           then (2 : Rat) else 0)
        + ((intent.modifiers.filter (fun m => m.1 == "state" &&
             decide (m.2 ∈ ((item.price_limits.getD []).map Prod.fst)))).length : Rat))
    ∧ (∀ (item1 item2 : SupportItem) (qts : List String) (intent : QueryIntent)
         (t : String),
      t ∈ qts → t ∉ nameTerms item1 → nameTerms item2 = nameTerms item1 ++ [t] →
      item2.support_category = item1.support_category →
      item2.price_limits = item1.price_limits →
      score_support_item item2 qts intent = score_support_item item1 qts intent + 3) := by
  constructor
  · intro item qts intent
    simp only [score_support_item]
    ring
  · intro item1 item2 qts intent t h1 h2 h3 h4 h5
    simp only [score_support_item, h3, h4, h5]
    rw [length_filter_mem_append_singleton (nameTerms item1) t qts.dedup
      (List.nodup_dedup qts) (List.mem_dedup.mpr h1) h2]
    push_cast
    ring

/-- Witness for C2's monotonicity at concrete items differing by one matching
name term. -/
theorem pricing_score_monotonicity_witness :
    score_support_item demoItemExtended ["transport", "standard"]
        ⟨"pricing", some "price", []⟩
      = score_support_item demoItemBase ["transport", "standard"]
          ⟨"pricing", some "price", []⟩ + 3 :=
  pricing_score_formula_and_monotonicity.2 demoItemBase demoItemExtended
    ["transport", "standard"] ⟨"pricing", some "price", []⟩ "standard"
    (by decide) (by decide) (by decide) (by decide) (by decide)

/-- C3 counterexample: a query containing both an NSW phrase and a VIC phrase
yields only the NSW modifier — the `elif` chain adds at most one state
modifier, so the claim that each distinct state phrase adds its own modifier
is false. -/
theorem state_modifier_elif_counterexample :
    strHasSub (lowerS "price in nsw and in victoria") "in nsw" = true
    ∧ strHasSub (lowerS "price in nsw and in victoria") "in victoria" = true
    ∧ (understand_query_intent "price in nsw and in victoria").modifiers
        = [("state", "NSW")]
    ∧ ("state", "VIC") ∉ (understand_query_intent "price in nsw and in victoria").modifiers := by
  refine ⟨by decide, by decide, by decide, by decide⟩

/-- C3 amended: state-modifier extraction is a first-match if/elif chain over
the two recognized states — at most one state modifier is ever added; a query
containing an NSW phrase gets exactly the NSW modifier, and a VIC modifier
can only be present when no NSW phrase occurs. Framework modifiers are
extracted independently. -/
theorem state_modifier_first_match_only :
    ∀ q : String,
      ((understand_query_intent q).modifiers.filter (fun m => m.1 == "state")).length ≤ 1
      ∧ ((strHasSub (lowerS q) "in nsw" || strHasSub (lowerS q) "in new south wales") = true →
          (understand_query_intent q).modifiers.filter (fun m => m.1 == "state")
            = [("state", "NSW")])
      ∧ (("state", "VIC") ∈ (understand_query_intent q).modifiers →
          (strHasSub (lowerS q) "in nsw" || strHasSub (lowerS q) "in new south wales") = false) := by
  intro q
  cases h1 : (strHasSub (lowerS q) "in nsw" || strHasSub (lowerS q) "in new south wales") <;>
    cases h2 : (strHasSub (lowerS q) "in vic" || strHasSub (lowerS q) "in victoria") <;>
      cases h3 : strHasSub (lowerS q) "old framework" <;>
        cases h4 : strHasSub (lowerS q) "new framework" <;>
          simp [understand_query_intent, h1, h2, h3, h4]

/-- Witness for C3's amended claim at a concrete NSW query. -/
theorem state_modifier_first_match_only_witness :
    (understand_query_intent "price in nsw").modifiers.filter (fun m => m.1 == "state")
      = [("state", "NSW")] :=
  (state_modifier_first_match_only "price in nsw").2.1 (by decide)

/-- C4 counterexample: the claim's "and hence, with positive score, in the
results" fails for the rules sub-search — a rule named `none` with the falsy
body `None` is a candidate for the query `"none"` and its score would be
positive (1.5, since `none` is a substring of `str(None).lower()`), yet the
`if rule:` guard skips it and `_search_rules` returns no results at all. -/
theorem or_semantics_in_results_counterexample :
    "none" ∈ ruleCandidates [("none", demoFalsyRule)] "none"
    ∧ score_rule demoFalsyRule (extract_terms "none") ⟨"general", none, []⟩ > 0
    ∧ search_rules [("none", demoFalsyRule)] "none" ⟨"general", none, []⟩ = [] := by
  refine ⟨by decide, ?_, by decide⟩
  have hflt : (extract_terms "none").filter
      (fun t => strHasSub (lowerS demoFalsyRule.repr_str) t) = ["none"] := by decide
  simp only [score_rule, hflt]
  rw [if_neg]
  · norm_num
  · decide

/-- C4 amended: candidate selection uses OR semantics in every sub-search
(pricing, rules, guidance) — the candidate key set is the union of the index
lookups over all query terms, so a document whose indexed text matches only
one of several query terms is still a candidate; matching all terms is not
required. A candidate then appears in the results whenever the sub-search's
fetch guard passes: a pricing candidate whose number resolves to an item, a
rule candidate whose body is truthy, a guidance candidate whose section index
is in bounds (a rule candidate with a falsy body is skipped regardless of its
score). -/
theorem or_semantics_all_subsearches :
    (∀ (items : List SupportItem) (q : String) (intent : QueryIntent) (t key : String),
      t ∈ extract_terms q → key ∈ pricing_index items t →
      key ∈ pricingCandidates items q
      ∧ ∀ item : SupportItem, get_support_item items key = some item →
          mkPricingResult item (extract_terms q) intent ∈ search_pricing items q intent)
    ∧ (∀ (rules : List (String × RuleVal)) (q : String) (intent : QueryIntent)
         (t name : String),
      t ∈ extract_terms q → name ∈ rule_index rules t →
      name ∈ ruleCandidates rules q
      ∧ ∀ rule : RuleVal, rules.lookup name = some rule → rule.truthy = true →
          mkRuleResult name rule (extract_terms q) intent ∈ search_rules rules q intent)
    ∧ (∀ (sections : List String) (q : String) (intent : QueryIntent) (t : String)
         (idx : Nat),
      t ∈ extract_terms q → idx ∈ guidance_index sections t →
      idx ∈ guidanceCandidates sections q
      ∧ ∀ h : idx < sections.length,
          mkGuidanceResult idx (sections.get ⟨idx, h⟩) (extract_terms q) intent
            ∈ search_guidance sections q intent) := by
  refine ⟨?_, ?_, ?_⟩
  · intro items q intent t key ht hk
    have hcand : key ∈ pricingCandidates items q := by
      simp only [pricingCandidates]
      rw [mem_dedupKeys]
      exact List.mem_flatMap.mpr ⟨t, ht, hk⟩
    refine ⟨hcand, ?_⟩
    intro item hitem
    simp only [search_pricing]
    exact List.mem_filterMap.mpr ⟨key, hcand, by rw [hitem]; rfl⟩
  · intro rules q intent t name ht hn
    have hcand : name ∈ ruleCandidates rules q := by
      simp only [ruleCandidates]
      rw [mem_dedupKeys]
      exact List.mem_flatMap.mpr ⟨t, ht, hn⟩
    refine ⟨hcand, ?_⟩
    intro rule hlookup htruthy
    simp only [search_rules]
    exact List.mem_filterMap.mpr ⟨name, hcand, by simp [hlookup, htruthy]⟩
  · intro sections q intent t idx ht hi
    have hcand : idx ∈ guidanceCandidates sections q := by
      simp only [guidanceCandidates]
      rw [mem_dedupKeys]
      exact List.mem_flatMap.mpr ⟨t, ht, hi⟩
    refine ⟨hcand, ?_⟩
    intro h
    simp only [search_guidance]
    exact List.mem_filterMap.mpr ⟨idx, hcand, by simp [h]⟩

/-- Witness for C4's amended claim, exercising all three sub-searches: a
single matching term of a multi-term query yields a candidate, and the
fetched pricing item, truthy rule and in-bounds guidance section each appear
in the corresponding results. -/
theorem or_semantics_all_subsearches_witness :
    "01_001" ∈ pricingCandidates demoCorpus.support_items "occupational price"
    ∧ mkPricingResult demoItem (extract_terms "occupational price")
        ⟨"pricing", some "price", []⟩
        ∈ search_pricing demoCorpus.support_items "occupational price"
            ⟨"pricing", some "price", []⟩
    ∧ "transport_rules" ∈ ruleCandidates demoCorpus.claiming_rules "transport_rules price"
    ∧ mkRuleResult "transport_rules" demoRule (extract_terms "transport_rules price")
        ⟨"pricing", some "price", []⟩
        ∈ search_rules demoCorpus.claiming_rules "transport_rules price"
            ⟨"pricing", some "price", []⟩
    ∧ 1 ∈ guidanceCandidates demoCorpus.sections "transport price"
    ∧ mkGuidanceResult 1 (demoCorpus.sections.get ⟨1, by decide⟩)
        (extract_terms "transport price") ⟨"pricing", some "price", []⟩
        ∈ search_guidance demoCorpus.sections "transport price"
            ⟨"pricing", some "price", []⟩ :=
  ⟨(or_semantics_all_subsearches.1 demoCorpus.support_items "occupational price"
      ⟨"pricing", some "price", []⟩ "occupational" "01_001" (by decide) (by decide)).1,
   (or_semantics_all_subsearches.1 demoCorpus.support_items "occupational price"
      ⟨"pricing", some "price", []⟩ "occupational" "01_001" (by decide) (by decide)).2
     demoItem rfl,
   (or_semantics_all_subsearches.2.1 demoCorpus.claiming_rules "transport_rules price"
      ⟨"pricing", some "price", []⟩ "transport_rules" "transport_rules"
      (by decide) (by decide)).1,
   (or_semantics_all_subsearches.2.1 demoCorpus.claiming_rules "transport_rules price"
      ⟨"pricing", some "price", []⟩ "transport_rules" "transport_rules"
      (by decide) (by decide)).2 demoRule rfl rfl,
   (or_semantics_all_subsearches.2.2 demoCorpus.sections "transport price"
      ⟨"pricing", some "price", []⟩ "transport" 1 (by decide) (by decide)).1,
   (or_semantics_all_subsearches.2.2 demoCorpus.sections "transport price"
      ⟨"pricing", some "price", []⟩ "transport" 1 (by decide) (by decide)).2
     (by decide)⟩

/-- C5: `search` is deterministic for a fixed corpus and query, its output is
ordered by `relevance_score` descending, and ties are broken by a stable sort
on the order in which results were inserted into the merged list: for every
score, the results carrying that score appear in exactly their merged-list
order. -/
theorem search_deterministic_and_stable :
    ∀ (c : Corpus) (q : String) (n : Nat),
      search c q n = search c q n
      ∧ (search c q n).Pairwise (fun a b => b.relevance_score ≤ a.relevance_score)
      ∧ ∀ s : Rat,
          (sortDesc (searchMerged c q)).filter (fun r => decide (r.relevance_score = s))
            = (searchMerged c q).filter (fun r => decide (r.relevance_score = s)) := by
  intro c q n
  refine ⟨rfl, ?_, fun s => filter_sortDesc (searchMerged c q) s⟩
  exact (pairwise_sortDesc (searchMerged c q)).sublist
    (List.take_sublist n (sortDesc (searchMerged c q)))

/-- C8: a query with no extractable terms — in particular the empty query —
yields an empty result list from `search` (the model is total, so no
exception is possible). -/
theorem empty_query_safety :
    (∀ (c : Corpus) (q : String) (n : Nat), extract_terms q = [] → search c q n = [])
    ∧ ∀ (c : Corpus) (n : Nat), search c "" n = [] := by
  have h1 : ∀ (c : Corpus) (q : String) (n : Nat), extract_terms q = [] →
      search c q n = [] := by
    intro c q n h
    simp [search, searchMerged, search_pricing, search_rules, search_guidance,
      pricingCandidates, ruleCandidates, guidanceCandidates, h, dedupKeys, dedupAux,
      sortDesc]
  exact ⟨h1, fun c n => h1 c "" n (by decide)⟩

/-- Witness for C8 on a stop-word-and-punctuation query over a non-empty
corpus. -/
theorem empty_query_safety_witness :
    search demoCorpus "the, a?!" 5 = [] :=
  empty_query_safety.1 demoCorpus "the, a?!" 5 (by decide)

/-- C6: RAG empty-retrieval terminal state — when the document corpus is
empty and retrieval yields zero documents (the query embedding succeeded),
`ask` returns the fixed "no relevant information" result with zero retrieved
documents and an empty sources list, and never invokes the generation
capability. -/
theorem rag_empty_corpus_terminal :
    ∀ (embedO : String → Except PyErr (List Rat))
      (genO : String → Nat → Except PyErr String) (model q : String)
      (topK mT : Nat) (qe : List Rat),
      embedO q = .ok qe →
      (askE [] embedO genO model q topK mT).1 = .ok (noRelevantResult q)
      ∧ (noRelevantResult q).retrieved_docs = 0
      ∧ (noRelevantResult q).sources = []
      ∧ ∀ (p : String) (mt : Nat),
          ExtCall.generateCall p mt ∉ (askE [] embedO genO model q topK mT).2 := by
  intro embedO genO model q topK mT qe h
  have hrank : rankDocs qe ([] : List RagDoc) topK = [] := by
    simp [rankDocs, sortBySim]
  refine ⟨?_, rfl, rfl, ?_⟩
  · simp [askE, h, hrank]
  · intro p mt
    simp [askE, h, hrank]

/-- Witness for C6 with a concrete always-succeeding embedding oracle. -/
theorem rag_empty_corpus_terminal_witness :
    (askE [] embedOkOracle genOkOracle "model-x" "hello" 5 2000).1
      = .ok (noRelevantResult "hello") :=
  (rag_empty_corpus_terminal embedOkOracle genOkOracle "model-x" "hello" 5 2000
    [1] rfl).1

/-- C7 counterexample: the module defines no `EmbeddingServiceError` or
`GenerationServiceError` class; an embedding-provider failure surfaces from
retrieval as the provider's own exception unchanged, and at a concrete input
an embedding failure and a generation failure produce *identical* `ask`
errors, so callers cannot distinguish the two stages by error type. -/
theorem provider_error_untyped_counterexample :
    (retrieveE [demoRagDoc] embedFailOracle "query" 5).1
        = .error (.provider "ClientError" "service unavailable")
    ∧ "EmbeddingServiceError" ∉ moduleClassNames
    ∧ "GenerationServiceError" ∉ moduleClassNames
    ∧ (askE [demoRagDoc] embedFailOracle genOkOracle "model-x" "query" 5 2000).1
        = (askE [demoRagDoc] embedOkOracle genFailOracle "model-x" "query" 5 2000).1 := by
  refine ⟨rfl, by decide, by decide, ?_⟩
  rfl

/-- C7 amended: provider failures are hard failures that propagate out of
`retrieve_relevant_documents` and `ask` as the provider's own exception,
unwrapped — the repository defines no `EmbeddingServiceError` or
`GenerationServiceError` types, so retrieval and generation failures are
distinguishable only by whatever exception the provider raised. -/
theorem provider_errors_propagate_unwrapped :
    (∀ (docs : List RagDoc) (embedO : String → Except PyErr (List Rat))
       (q : String) (topK : Nat) (e : PyErr),
      embedO q = .error e → (retrieveE docs embedO q topK).1 = .error e)
    ∧ (∀ (docs : List RagDoc) (embedO : String → Except PyErr (List Rat))
         (genO : String → Nat → Except PyErr String) (model q : String)
         (topK mT : Nat) (e : PyErr),
      embedO q = .error e → (askE docs embedO genO model q topK mT).1 = .error e)
    ∧ (∀ (docs : List RagDoc) (embedO : String → Except PyErr (List Rat))
         (genO : String → Nat → Except PyErr String) (model q : String)
         (topK mT : Nat) (qe : List Rat) (e : PyErr),
      embedO q = .ok qe →
      rankDocs qe docs topK ≠ [] →
      genO (generatePrompt q (rankDocs qe docs topK)) mT = .error e →
      (askE docs embedO genO model q topK mT).1 = .error e)
    ∧ "EmbeddingServiceError" ∉ moduleClassNames
    ∧ "GenerationServiceError" ∉ moduleClassNames := by
  refine ⟨?_, ?_, ?_, by decide, by decide⟩
  · intro docs embedO q topK e h
    simp [retrieveE, h]
  · intro docs embedO genO model q topK mT e h
    simp [askE, h]
  · intro docs embedO genO model q topK mT qe e h hne hg
    cases hr : rankDocs qe docs topK with
    | nil => exact absurd hr hne
    | cons d tl =>
      rw [hr] at hg
      simp [askE, h, hr, hg]

/-- Witness for C7's amended claim: a concrete `ClientError` from the
embedding provider comes out of `ask` unchanged. -/
theorem provider_errors_propagate_unwrapped_witness :
    (askE [demoRagDoc] embedFailOracle genOkOracle "model-x" "query" 5 2000).1
      = .error (.provider "ClientError" "service unavailable") :=
  provider_errors_propagate_unwrapped.2.1 [demoRagDoc] embedFailOracle genOkOracle
    "model-x" "query" 5 2000 (.provider "ClientError" "service unavailable") rfl

/-- C9: the module-level name `PAPLAssistant` is rebound by the second class
definition (overriding the alias to `BedrockRAGAssistant`), the second class
defines neither `_create_pricing_document` nor `_create_rule_document`, and
constructing it with a non-empty `support_items` list or a non-empty
`claiming_rules` mapping raises `AttributeError`. -/
theorem papl_assistant_rebinding_attribute_error :
    paplFinalBinding = PaplBinding.secondClass
    ∧ "_create_pricing_document" ∉ papl2MethodNames
    ∧ "_create_rule_document" ∉ papl2MethodNames
    ∧ (∀ (jd : Option (List SupportItem)) (yd : Option (List (String × RuleVal)))
         (item : SupportItem) (rest : List SupportItem),
        jd = some (item :: rest) →
        paplAssistant2Init jd yd = .error (.attributeError "_create_pricing_document"))
    ∧ (∀ (jd : Option (List SupportItem)) (yd : Option (List (String × RuleVal))),
        (∃ item rest, jd = some (item :: rest)) ∨ (∃ r rest, yd = some (r :: rest)) →
        ∃ attr : String, paplAssistant2Init jd yd = .error (.attributeError attr)) := by
  refine ⟨rfl, by decide, by decide, ?_, ?_⟩
  · rintro jd yd item rest rfl
    rfl
  · rintro jd yd (⟨item, rest, rfl⟩ | ⟨r, rest, rfl⟩)
    · exact ⟨"_create_pricing_document", rfl⟩
    · cases jd with
      | none => exact ⟨"_create_rule_document", rfl⟩
      | some l =>
        cases l with
        | nil => exact ⟨"_create_rule_document", rfl⟩
        | cons i tl => exact ⟨"_create_pricing_document", rfl⟩

/-- Witness for C9: one support item is enough to make the constructor
raise. -/
theorem papl_assistant_rebinding_attribute_error_witness :
    paplAssistant2Init (some [demoItem]) none
      = .error (.attributeError "_create_pricing_document") :=
  papl_assistant_rebinding_attribute_error.2.2.2.1 (some [demoItem]) none demoItem [] rfl

/-- C10: `retrieve_relevant_documents` requests the query embedding before
inspecting the corpus — the embedding call is made even over an empty corpus
— so `ask` on an empty corpus reaches the "no relevant information" terminal
result exactly when that call succeeds, and otherwise fails with the
embedding provider's error. -/
theorem embed_requested_before_corpus :
    ∀ (docs : List RagDoc) (embedO : String → Except PyErr (List Rat))
      (genO : String → Nat → Except PyErr String) (model q : String) (topK mT : Nat),
      ExtCall.embedCall q ∈ (retrieveE docs embedO q topK).2
      ∧ ExtCall.embedCall q ∈ (askE [] embedO genO model q topK mT).2
      ∧ (∀ e : PyErr, embedO q = .error e →
          (askE [] embedO genO model q topK mT).1 = .error e)
      ∧ (∀ qe : List Rat, embedO q = .ok qe →
          (askE [] embedO genO model q topK mT).1 = .ok (noRelevantResult q)) := by
  intro docs embedO genO model q topK mT
  refine ⟨?_, ?_, ?_, ?_⟩
  · cases h : embedO q <;> simp [retrieveE, h]
  · cases h : embedO q with
    | error e => simp [askE, h]
    | ok qe =>
      have hrank : rankDocs qe ([] : List RagDoc) topK = [] := by
        simp [rankDocs, sortBySim]
      simp [askE, h, hrank]
  · intro e he
    simp [askE, he]
  · intro qe he
    have hrank : rankDocs qe ([] : List RagDoc) topK = [] := by
      simp [rankDocs, sortBySim]
    simp [askE, he, hrank]

/-- Witness for C10: with a failing embedding oracle, `ask` over the empty
corpus fails with the provider's error instead of reaching the terminal
result. -/
theorem embed_requested_before_corpus_witness :
    (askE [] embedFailOracle genOkOracle "model-x" "hello" 5 2000).1
      = .error (.provider "ClientError" "service unavailable") :=
  (embed_requested_before_corpus [] embedFailOracle genOkOracle "model-x" "hello"
    5 2000).2.2.1 (.provider "ClientError" "service unavailable") rfl

end Papl
